import Mathlib

/-!
Verification of `scripts/generate_test_pdf.py` (pdf2md test-fixture generator).

The script builds a fixed, declarative list of reportlab flowables (a
"story"), hands it to `SimpleDocTemplate.build`, and reports success or
failure from the command-line entry point.  We embed the data the script
constructs — paragraph styles, the flowable story, the document template —
as concrete Lean values, and the process-level behaviour of the
`__main__` block as a pure function of the environment (whether the
reportlab import succeeds, the argument vector, the script path, and the
outcome of the external build step).

Numeric attributes (font sizes, margins, spacer heights) are Python
floats in the source; all values that appear are exactly representable,
so we model them as rationals.  `inch = 72` as in `reportlab.lib.units`.
-/

namespace GenTestPdf

/-- Alignment constants from `reportlab.lib.enums`. -/
def TA_LEFT : Nat := 0

/-- Alignment constant for centered text. -/
def TA_CENTER : Nat := 1

/-- One inch in points, from `reportlab.lib.units`. -/
def inch : ℚ := 72

/-- A resolved paragraph style: the attribute bundle that the reportlab
`ParagraphStyle` carries after inheriting from its parent.  `parent=p`
plus keyword overrides is modelled as the Lean record-update of the
resolved record of the parent. -/
structure Style where
  name : String
  fontName : String
  fontSize : ℚ
  leading : ℚ
  alignment : Nat
  spaceBefore : ℚ
  spaceAfter : ℚ
  textColor : String
  deriving DecidableEq

/-- The `Normal` style of the reportlab sample stylesheet. -/
def normal_sheet_style : Style :=
  { name := "Normal", fontName := "Helvetica", fontSize := 10, leading := 12,
    alignment := TA_LEFT, spaceBefore := 0, spaceAfter := 0, textColor := "black" }

/-- The `BodyText` style of the reportlab sample stylesheet. -/
def body_text_sheet_style : Style :=
  { normal_sheet_style with name := "BodyText", spaceBefore := 6 }

/-- The `Heading1` style of the reportlab sample stylesheet. -/
def heading1_sheet_style : Style :=
  { normal_sheet_style with
      name := "Heading1", fontName := "Helvetica-Bold",
      fontSize := 18, leading := 22, spaceAfter := 6 }

/-- The `Heading2` style of the reportlab sample stylesheet. -/
def heading2_sheet_style : Style :=
  { normal_sheet_style with
      name := "Heading2", fontName := "Helvetica-Bold",
      fontSize := 14, leading := 18, spaceBefore := 12, spaceAfter := 6 }

/-- Lookup in the sample stylesheet (`getSampleStyleSheet()[name]`),
restricted to the entries the script reads. -/
def getSampleStyleSheet (name : String) : Style :=
  if name = "BodyText" then body_text_sheet_style
  else if name = "Heading1" then heading1_sheet_style
  else if name = "Heading2" then heading2_sheet_style
  else normal_sheet_style

/-- `title_style`: ParagraphStyle CustomTitle, parent Heading1, fontSize 24,
textColor #000000, spaceAfter 30, alignment TA_CENTER. -/
def title_style : Style :=
  { getSampleStyleSheet "Heading1" with
      name := "CustomTitle", fontSize := 24, textColor := "#000000",
      spaceAfter := 30, alignment := TA_CENTER }

/-- `heading_style`: ParagraphStyle CustomHeading, parent Heading2,
fontSize 16, textColor #000000, spaceAfter 12, spaceBefore 12. -/
def heading_style : Style :=
  { getSampleStyleSheet "Heading2" with
      name := "CustomHeading", fontSize := 16, textColor := "#000000",
      spaceAfter := 12, spaceBefore := 12 }

/-- `body_style = styles[BodyText]`, taken unmodified from the sheet. -/
def body_style : Style := getSampleStyleSheet "BodyText"

/-- A flowable appended to the story: a paragraph (text payload, possibly
with inline markup, plus a style), a spacer (width, height), or a page
break. -/
inductive Flowable where
  | paragraph (text : String) (style : Style)
  | spacer (width height : ℚ)
  | pageBreak
  deriving DecidableEq

/-- The style referenced by a flowable, if any. -/
def styleOf : Flowable → Option Style
  | Flowable.paragraph _ s => some s
  | _ => none

/-- Whether a flowable is the explicit page break. -/
def isPageBreak : Flowable → Bool
  | Flowable.pageBreak => true
  | _ => false

/-- Whether a flowable is a bullet list item (paragraph whose text starts
with the bullet glyph and a space, as produced by the feature/quality
loops). -/
def is_bullet_item (f : Flowable) : Bool :=
  match f with
  | Flowable.paragraph t _ => t.take 2 == "• "
  | _ => false

/-- Title and first spacer (source lines 55-57). -/
def title_block : List Flowable :=
  [Flowable.paragraph "Sample Document for Testing" title_style,
   Flowable.spacer 1 (0.2 * inch)]

/-- Italicized metadata paragraph and spacer (source lines 59-61). -/
def metadata_block : List Flowable :=
  [Flowable.paragraph "<i>A test PDF for pdf2md converter</i>" body_style,
   Flowable.spacer 1 (0.3 * inch)]

/-- Section 1: Introduction (source lines 63-79). -/
def introduction_section : List Flowable :=
  [Flowable.paragraph "Introduction" heading_style,
   Flowable.paragraph
     ("This is a sample PDF document created for testing the pdf2md converter. " ++
      "It contains structured text with multiple sections, paragraphs, and formatting " ++
      "to validate the conversion process.")
     body_style,
   Flowable.spacer 1 (0.2 * inch),
   Flowable.paragraph
     ("The document includes various elements commonly found in PDF files, such as " ++
      "headings, body text, lists, and multiple paragraphs. This helps ensure that " ++
      "the converter can handle real-world PDF documents effectively.")
     body_style,
   Flowable.spacer 1 (0.3 * inch)]

/-- The fixed ordered feature list (source lines 89-95). -/
def features : List String :=
  ["Command-line interface for easy integration",
   "Dry-run mode to preview PDF structure",
   "Verbose output for detailed processing information",
   "Automatic directory creation for output files",
   "Robust error handling with clear messages"]

/-- Section 2: Features (source lines 81-101): heading, intro paragraph,
a 0.1-inch spacer, then per feature a bullet paragraph plus a 0.05-inch
spacer, and a closing 0.3-inch spacer. -/
def features_section : List Flowable :=
  [Flowable.paragraph "Features of pdf2md" heading_style,
   Flowable.paragraph "The pdf2md tool provides several key features:" body_style,
   Flowable.spacer 1 (0.1 * inch)] ++
  (features.flatMap fun feature =>
    [Flowable.paragraph ("• " ++ feature) body_style,
     Flowable.spacer 1 (0.05 * inch)]) ++
  [Flowable.spacer 1 (0.3 * inch)]

/-- Section 3: Use Cases (source lines 103-130). -/
def use_cases_section : List Flowable :=
  [Flowable.paragraph "Use Cases" heading_style,
   Flowable.paragraph "The pdf2md converter is useful in several scenarios:" body_style,
   Flowable.spacer 1 (0.2 * inch),
   Flowable.paragraph
     ("<b>Documentation:</b> Convert PDF manuals to Markdown for documentation " ++
      "websites and wikis. This makes content more accessible and easier to maintain.")
     body_style,
   Flowable.spacer 1 (0.1 * inch),
   Flowable.paragraph
     ("<b>Content Migration:</b> Move PDF content to Markdown-based content management " ++
      "systems or static site generators like Jekyll, Hugo, or MkDocs.")
     body_style,
   Flowable.spacer 1 (0.1 * inch),
   Flowable.paragraph
     ("<b>Automation:</b> Integrate PDF processing into CI/CD pipelines for automated " ++
      "documentation workflows and content publishing.")
     body_style,
   Flowable.spacer 1 (0.3 * inch)]

/-- Section 4: Technical Details (source lines 135-151). -/
def technical_details_section : List Flowable :=
  [Flowable.paragraph "Technical Details" heading_style,
   Flowable.paragraph
     ("The pdf2md tool is built with Rust 2024 edition, ensuring memory safety, " ++
      "performance, and reliability. It follows Test-Driven Development practices " ++
      "with comprehensive test coverage.")
     body_style,
   Flowable.spacer 1 (0.2 * inch),
   Flowable.paragraph
     ("The architecture is modular, with separate components for CLI parsing, " ++
      "PDF processing, and Markdown generation. This design makes the codebase " ++
      "maintainable and extensible.")
     body_style,
   Flowable.spacer 1 (0.3 * inch)]

/-- The fixed ordered quality-standard list (source lines 161-168). -/
def quality_items : List String :=
  ["Zero compiler warnings",
   "Zero clippy warnings",
   "All tests must pass",
   "Code coverage above 80%",
   "Comprehensive documentation",
   "Clean git history"]

/-- Section 5: Quality Standards (source lines 153-174): heading, intro
paragraph, a 0.1-inch spacer, then per item a bullet paragraph plus a
0.05-inch spacer, and a closing 0.3-inch spacer. -/
def quality_standards_section : List Flowable :=
  [Flowable.paragraph "Quality Standards" heading_style,
   Flowable.paragraph "The project adheres to strict quality standards:" body_style,
   Flowable.spacer 1 (0.1 * inch)] ++
  (quality_items.flatMap fun item =>
    [Flowable.paragraph ("• " ++ item) body_style,
     Flowable.spacer 1 (0.05 * inch)]) ++
  [Flowable.spacer 1 (0.3 * inch)]

/-- Section 6: Conclusion (source lines 176-190). -/
def conclusion_section : List Flowable :=
  [Flowable.paragraph "Conclusion" heading_style,
   Flowable.paragraph
     ("This sample document demonstrates the type of content that pdf2md can process. " ++
      "The converter extracts text from PDFs and formats it as Markdown, making it " ++
      "suitable for modern documentation workflows.")
     body_style,
   Flowable.spacer 1 (0.2 * inch),
   Flowable.paragraph
     ("For more information, visit the project repository or consult the documentation " ++
      "in the docs/ directory. The tool is open source and contributions are welcome.")
     body_style]

/-- The full story, in the exact append order of `generate_test_pdf`
(source lines 29-190): blocks and sections, with the single `PageBreak()`
appended at line 133 between the Use Cases and Technical Details
sections. -/
def story : List Flowable :=
  title_block ++ metadata_block ++ introduction_section ++ features_section ++
  use_cases_section ++ [Flowable.pageBreak] ++ technical_details_section ++
  quality_standards_section ++ conclusion_section

/-- The `letter` page size from `reportlab.lib.pagesizes`: 612 x 792
points. -/
def letter : ℚ × ℚ := (612, 792)

/-- The configuration `SimpleDocTemplate` is constructed with (source
lines 20-27): output filename, page size, and the four margins. -/
structure DocTemplate where
  filename : String
  pagesize : ℚ × ℚ
  rightMargin : ℚ
  leftMargin : ℚ
  topMargin : ℚ
  bottomMargin : ℚ
  deriving DecidableEq

/-- The pure content of `generate_test_pdf(output_path)` before the build
step: the document template constructed at source lines 20-27 and the
story built at lines 29-190.  The story construction never reads
`output_path`; only the template does. -/
def generate_test_pdf (output_path : String) : DocTemplate × List Flowable :=
  ({ filename := output_path, pagesize := letter, rightMargin := 72,
     leftMargin := 72, topMargin := 72, bottomMargin := 18 },
   story)

/-- Join path components with the separator, as printing a
`pathlib.Path` does. -/
def joinPath (components : List String) : String :=
  String.intercalate "/" components

/-- Output-path resolution of the `__main__` block (source lines
198-205).  `filePath` is the component list of `__file__`; in Python,
`Path(__file__).parent` drops the last component, and the project root
is the parent of the script directory. -/
def mainOutputPath (argv : List String) (filePath : List String) : String :=
  if argv.length > 1 then argv.getD 1 ""
  else joinPath (filePath.dropLast.dropLast ++ ["tests", "fixtures", "sample.pdf"])

/-- Observable outcome of one process run: exit status, the lines
printed to standard output, whether the build step wrote the output
file, and how many times `generate_test_pdf` was invoked. -/
structure ProcResult where
  exitCode : Nat
  stdout : List String
  fileWritten : Bool
  genCalls : Nat
  deriving DecidableEq

/-- Process-level model of running the script (source lines 7-13 and
197-218).  `reportlabAvailable` says whether the module-level
reportlab imports at lines 7-11 succeed; on failure Python aborts with an
uncaught ImportError before the `__main__` block runs, printing a
traceback to standard error only and exiting with status 1.  When
the imports succeed, the `__main__` block resolves the output path, prints
the progress line, calls `generate_test_pdf` once, and either reports
success (exit 0) or catches the exception from the external build step
(`buildOutcome`) and exits 1 after printing the error text. -/
def scriptMain (reportlabAvailable : Bool) (argv : List String)
    (filePath : List String) (buildOutcome : Except String Unit) : ProcResult :=
  if reportlabAvailable then
    let output_path := mainOutputPath argv filePath
    match buildOutcome with
    | Except.ok _ =>
        { exitCode := 0,
          stdout := ["Generating test PDF at: " ++ output_path,
                     "Generated test PDF: " ++ output_path,
                     "Success!"],
          fileWritten := true, genCalls := 1 }
    | Except.error e =>
        { exitCode := 1,
          stdout := ["Generating test PDF at: " ++ output_path,
                     "Error generating PDF: " ++ e],
          fileWritten := false, genCalls := 1 }
  else
    { exitCode := 1, stdout := [], fileWritten := false, genCalls := 0 }

/-- One step of `generate_test_pdf` in source order: constructing the
sample stylesheet (line 33), defining a custom style or binding
`body_style` (lines 35-53), appending one flowable (lines 56-190), or
the final build call (line 193). -/
inductive Step where
  | defSheet
  | defStyle (s : Style)
  | append (f : Flowable)
  | buildCall
  deriving DecidableEq

/-- The step trace of `generate_test_pdf`, in source order: the
stylesheet, then the three style bindings, then every story append, then
the build call. -/
def generate_steps : List Step :=
  Step.defSheet :: Step.defStyle title_style :: Step.defStyle heading_style ::
  Step.defStyle body_style :: (story.map Step.append ++ [Step.buildCall])

/-- Scans a step trace left to right, carrying the set of styles defined
so far, and checks that every appended flowable only references an
already-defined style.  `defSheet` defines the four sheet entries the
script can reach. -/
def styles_defined_before_use : List Step → List Style → Bool
  | [], _ => true
  | Step.defSheet :: rest, defined =>
      styles_defined_before_use rest
        (normal_sheet_style :: body_text_sheet_style :: heading1_sheet_style ::
         heading2_sheet_style :: defined)
  | Step.defStyle s :: rest, defined =>
      styles_defined_before_use rest (s :: defined)
  | Step.append f :: rest, defined =>
      (match styleOf f with
       | some s => defined.contains s
       | none => true) && styles_defined_before_use rest defined
  | Step.buildCall :: rest, defined =>
      styles_defined_before_use rest defined

/-- Whether a step appends a flowable. -/
def is_append_step : Step → Bool
  | Step.append _ => true
  | _ => false

/-- Whether a step defines a style (the stylesheet or a binding). -/
def is_style_def_step : Step → Bool
  | Step.defSheet => true
  | Step.defStyle _ => true
  | _ => false

/-- True when no style-defining step occurs at or after the first
append step of the trace. -/
def no_style_def_after_first_append (steps : List Step) : Bool :=
  (steps.dropWhile (fun s => !is_append_step s)).all fun s => !is_style_def_step s

/-- The Features section as the specification enumerates it (heading,
intro paragraph, then the five item + small-spacer pairs, closing larger
spacer), stated for comparison with `features_section`, which the source
builds with an extra 0.1-inch spacer between the intro paragraph and the
first item. -/
def features_section_per_claim : List Flowable :=
  [Flowable.paragraph "Features of pdf2md" heading_style,
   Flowable.paragraph "The pdf2md tool provides several key features:" body_style] ++
  (features.flatMap fun feature =>
    [Flowable.paragraph ("• " ++ feature) body_style,
     Flowable.spacer 1 (0.05 * inch)]) ++
  [Flowable.spacer 1 (0.3 * inch)]

/-- The Quality Standards section as the specification enumerates it
(heading, intro paragraph, then the six item + small-spacer pairs,
closing larger spacer), for comparison with
`quality_standards_section`. -/
def quality_standards_section_per_claim : List Flowable :=
  [Flowable.paragraph "Quality Standards" heading_style,
   Flowable.paragraph "The project adheres to strict quality standards:" body_style] ++
  (quality_items.flatMap fun item =>
    [Flowable.paragraph ("• " ++ item) body_style,
     Flowable.spacer 1 (0.05 * inch)]) ++
  [Flowable.spacer 1 (0.3 * inch)]

/-- C1: evaluation of the code at the failing input.  When the
reportlab import fails at module level, the process exits with status 1 and no
file is written, but nothing reaches standard output: in particular the
installation-guidance line of the `except ImportError` handler (source
line 214) is never printed, because the ImportError is raised at source
line 7, before the `__main__` try block runs. -/
theorem c1_missing_reportlab_behavior (argv filePath : List String)
    (buildOutcome : Except String Unit) :
    (scriptMain false argv filePath buildOutcome).exitCode = 1 ∧
    (scriptMain false argv filePath buildOutcome).fileWritten = false ∧
    "Install with: pip install reportlab" ∉
      (scriptMain false argv filePath buildOutcome).stdout := by
  refine ⟨rfl, rfl, ?_⟩
  simp [scriptMain]

/-- C2: the story contains exactly one PageBreak; it sits right after
the last element of the Use Cases section (its closing 0.3-inch spacer)
and right before the Technical Details heading, and everything after it
is exactly the Technical Details, Quality Standards and Conclusion
sections. -/
theorem c2_single_page_break_position :
    story.countP isPageBreak = 1 ∧
    story =
      (title_block ++ metadata_block ++ introduction_section ++ features_section ++
       use_cases_section) ++ [Flowable.pageBreak] ++
      (technical_details_section ++ quality_standards_section ++ conclusion_section) ∧
    use_cases_section.getLast? = some (Flowable.spacer 1 (0.3 * inch)) ∧
    technical_details_section.head? =
      some (Flowable.paragraph "Technical Details" heading_style) := by
  refine ⟨by decide, ?_, rfl, rfl⟩
  simp [story, List.append_assoc]

/-- C3: with no positional argument the output path is
tests/fixtures/sample.pdf under the project root, the parent of the
directory containing the script; with a positional argument present it
is used verbatim. -/
theorem c3_output_path_resolution (a0 a1 : String) (rest filePath : List String) :
    mainOutputPath (a0 :: a1 :: rest) filePath = a1 ∧
    mainOutputPath [a0] filePath =
      joinPath (filePath.dropLast.dropLast ++ ["tests", "fixtures", "sample.pdf"]) ∧
    mainOutputPath [] filePath =
      joinPath (filePath.dropLast.dropLast ++ ["tests", "fixtures", "sample.pdf"]) := by
  refine ⟨?_, ?_, ?_⟩ <;> simp [mainOutputPath]

/-- C4: any exception from the build step other than the missing-library
case is caught at top level; the process prints the line carrying the
underlying error text, exits with status 1, and calls the generation
function exactly once (no retry). -/
theorem c4_generic_exception_handling (e : String) (argv filePath : List String) :
    (scriptMain true argv filePath (Except.error e)).exitCode = 1 ∧
    ("Error generating PDF: " ++ e) ∈
      (scriptMain true argv filePath (Except.error e)).stdout ∧
    (scriptMain true argv filePath (Except.error e)).genCalls = 1 := by
  refine ⟨rfl, ?_, rfl⟩
  simp [scriptMain]

/-- C5 counterexample: the Features section the source builds is not the
exhaustive enumeration the claim states (heading, intro, then
immediately the five item + spacer pairs): the source inserts an
additional 0.1-inch spacer between the intro paragraph and the first
list item, and likewise in Quality Standards. -/
theorem c5_counterexample_bullet_sections :
    features_section ≠ features_section_per_claim ∧
    quality_standards_section ≠ quality_standards_section_per_claim := by
  decide

/-- C5 amended: the Features section is a Heading, an intro Body
paragraph, a small 0.1-inch spacer, then exactly five bullet list items
in the fixed feature order, each a paragraph starting with the bullet
glyph and each followed by a small 0.05-inch spacer, closing with a
larger 0.3-inch spacer; Quality Standards has the same shape with
exactly six items. -/
theorem c5_bullet_sections_amended :
    features_section =
      [Flowable.paragraph "Features of pdf2md" heading_style,
       Flowable.paragraph "The pdf2md tool provides several key features:" body_style,
       Flowable.spacer 1 (0.1 * inch),
       Flowable.paragraph "• Command-line interface for easy integration" body_style,
       Flowable.spacer 1 (0.05 * inch),
       Flowable.paragraph "• Dry-run mode to preview PDF structure" body_style,
       Flowable.spacer 1 (0.05 * inch),
       Flowable.paragraph "• Verbose output for detailed processing information" body_style,
       Flowable.spacer 1 (0.05 * inch),
       Flowable.paragraph "• Automatic directory creation for output files" body_style,
       Flowable.spacer 1 (0.05 * inch),
       Flowable.paragraph "• Robust error handling with clear messages" body_style,
       Flowable.spacer 1 (0.05 * inch),
       Flowable.spacer 1 (0.3 * inch)] ∧
    features.length = 5 ∧
    features_section.countP is_bullet_item = 5 ∧
    quality_standards_section =
      [Flowable.paragraph "Quality Standards" heading_style,
       Flowable.paragraph "The project adheres to strict quality standards:" body_style,
       Flowable.spacer 1 (0.1 * inch),
       Flowable.paragraph "• Zero compiler warnings" body_style,
       Flowable.spacer 1 (0.05 * inch),
       Flowable.paragraph "• Zero clippy warnings" body_style,
       Flowable.spacer 1 (0.05 * inch),
       Flowable.paragraph "• All tests must pass" body_style,
       Flowable.spacer 1 (0.05 * inch),
       Flowable.paragraph "• Code coverage above 80%" body_style,
       Flowable.spacer 1 (0.05 * inch),
       Flowable.paragraph "• Comprehensive documentation" body_style,
       Flowable.spacer 1 (0.05 * inch),
       Flowable.paragraph "• Clean git history" body_style,
       Flowable.spacer 1 (0.05 * inch),
       Flowable.spacer 1 (0.3 * inch)] ∧
    quality_items.length = 6 ∧
    quality_standards_section.countP is_bullet_item = 6 ∧
    (0.05 : ℚ) * inch < (0.3 : ℚ) * inch ∧ (0.1 : ℚ) * inch < (0.3 : ℚ) * inch := by
  refine ⟨rfl, rfl, by decide, rfl, rfl, by decide, by norm_num [inch], by norm_num [inch]⟩

/-- C6: every style referenced by a story element is one of the three
style objects the script builds; all three are used; they are pairwise
distinct; the Title style is the 24-point centered one with spaceAfter
30; the Heading style is the 16-point one with spaceBefore and
spaceAfter 12; the Body style is the sample stylesheet BodyText entry
taken unmodified; and every bullet list item reuses the Body style
rather than a style of its own. -/
theorem c6_styles_in_use :
    (story.filterMap styleOf).all
      (fun s => s == title_style || s == heading_style || s == body_style) = true ∧
    title_style ∈ story.filterMap styleOf ∧
    heading_style ∈ story.filterMap styleOf ∧
    body_style ∈ story.filterMap styleOf ∧
    title_style ≠ heading_style ∧ title_style ≠ body_style ∧
    heading_style ≠ body_style ∧
    title_style.fontSize = 24 ∧ title_style.alignment = TA_CENTER ∧
    title_style.spaceAfter = 30 ∧
    heading_style.fontSize = 16 ∧ heading_style.spaceBefore = 12 ∧
    heading_style.spaceAfter = 12 ∧
    body_style = getSampleStyleSheet "BodyText" ∧
    story.all (fun f => !is_bullet_item f || styleOf f == some body_style) = true := by
  set_option maxRecDepth 10000 in decide

/-- C7: a run whose build step succeeds, invoked with path argument p,
exits with status 0, prints the confirmation line naming p, and the
output file is written. -/
theorem c7_success_message_and_exit (prog p : String) (rest filePath : List String) :
    (scriptMain true (prog :: p :: rest) filePath (Except.ok ())).exitCode = 0 ∧
    ("Generated test PDF: " ++ p) ∈
      (scriptMain true (prog :: p :: rest) filePath (Except.ok ())).stdout ∧
    (scriptMain true (prog :: p :: rest) filePath (Except.ok ())).fileWritten = true := by
  refine ⟨rfl, ?_, rfl⟩
  simp [scriptMain, mainOutputPath]

/-- C8: the story handed to the build step is the same, element for
element, for any two output paths: content construction never reads the
path. -/
theorem c8_story_independent_of_path (p1 p2 : String) :
    (generate_test_pdf p1).2 = (generate_test_pdf p2).2 := rfl

/-- C9: along the step trace of the generator, every appended flowable
references only a style already defined at that point (the stylesheet
and both custom styles are built before the first append), and no
style-defining step occurs once appending has begun. -/
theorem c9_styles_defined_before_use :
    styles_defined_before_use generate_steps [] = true ∧
    no_style_def_after_first_append generate_steps = true := by
  decide

/-- C10: for every output path the document template carries letter page
size and margins right 72, left 72, top 72, bottom 18, the bottom margin
differing from the other three, and the given filename. -/
theorem c10_doc_template_margins (p : String) :
    (generate_test_pdf p).1.rightMargin = 72 ∧
    (generate_test_pdf p).1.leftMargin = 72 ∧
    (generate_test_pdf p).1.topMargin = 72 ∧
    (generate_test_pdf p).1.bottomMargin = 18 ∧
    (generate_test_pdf p).1.pagesize = letter ∧
    (generate_test_pdf p).1.bottomMargin ≠ (generate_test_pdf p).1.topMargin ∧
    (generate_test_pdf p).1.filename = p := by
  refine ⟨rfl, rfl, rfl, rfl, rfl, ?_, rfl⟩
  intro h
  have h18 : (18 : ℚ) = 72 := h
  exact absurd h18 (by decide)

end GenTestPdf
